import Mathlib

/-!
Verification of the geometric overlay and interaction engine of the
object-detection viewer (`src/components/InteractiveImageOverlay.tsx`).

Coordinates are embedded as rationals (`ℚ`); JavaScript `Math.round` is
`⌊x + 1/2⌋` (round half toward +∞) and `Number.prototype.toFixed` follows the
ECMAScript algorithm (sign split off, nearest integer numerator, ties pick the
larger). Component state (`useState` hooks plus the lifted
`selectedDetectionId` prop) is one explicit record, and each event handler is a
total function on it.
-/

namespace Overlay

/-- A 2-D point with rational coordinates. -/
structure Point where
  x : ℚ
  y : ℚ
deriving DecidableEq, Repr

/-- `bbox` of a detection: `{x1,y1,x2,y2}` in original-image pixel space. -/
structure BBox where
  x1 : ℚ
  y1 : ℚ
  x2 : ℚ
  y2 : ℚ
deriving DecidableEq, Repr

/-- The four corner points of a detection (`vertices` in the source). -/
structure Vertices where
  top_left : Point
  top_right : Point
  bottom_left : Point
  bottom_right : Point
deriving DecidableEq, Repr

/-- `dimensions` of a detection. -/
structure Dims where
  width : ℚ
  height : ℚ
deriving DecidableEq, Repr

/-- `DetectionData` as declared in `InteractiveImageOverlay.tsx`. -/
structure DetectionData where
  id : ℤ
  class_name : String
  confidence : ℚ
  bbox : BBox
  vertices : Vertices
  center_point : Point
  area : ℚ
  dimensions : Dims
  matched_request : Bool
deriving DecidableEq, Repr

/-- JavaScript `Math.round`: round half toward positive infinity. -/
def jsRound (q : ℚ) : ℤ := Int.floor (q + 1/2)

/-- Width/height pair (display or image extents). -/
structure Extents where
  width : ℚ
  height : ℚ
deriving DecidableEq, Repr

/-- `getScaledDimensions` from the source: exact dimensions pass through;
otherwise cap the height at 600 px, scaling the width by the aspect ratio. -/
def getScaledDimensions (imageWidth imageHeight : ℚ) (exactDimensions : Bool) :
    Extents :=
  if exactDimensions then
    ⟨imageWidth, imageHeight⟩
  else
    let maxHeight : ℚ := 600
    let aspect := imageWidth / imageHeight
    if imageHeight ≤ maxHeight then
      ⟨imageWidth, imageHeight⟩
    else
      let scaledHeight := maxHeight
      let scaledWidth : ℚ := (jsRound (scaledHeight * aspect) : ℚ)
      ⟨scaledWidth, scaledHeight⟩

/-- `updateDimensions` from the source (also the `onLoad` handler): returns the
display extents together with the `scaleFactors` pair. -/
def updateDimensions (imageWidth imageHeight : ℚ) (exactDimensions : Bool) :
    Extents × Point :=
  if exactDimensions then
    (⟨imageWidth, imageHeight⟩, ⟨1, 1⟩)
  else
    let sd := getScaledDimensions imageWidth imageHeight exactDimensions
    (sd, ⟨sd.width / imageWidth, sd.height / imageHeight⟩)

/-- A DOM bounding client rect (the fields the source reads). -/
structure Rect where
  left : ℚ
  top : ℚ
  width : ℚ
  height : ℚ
deriving DecidableEq, Repr

/-- `getImageCoordinates` from the source: client coordinates to image space
through the image element's bounding rect; `{0,0}` when no surface is
mounted (`imageRef.current` is null). -/
def getImageCoordinates (imageRef : Option Rect) (imageWidth imageHeight : ℚ)
    (clientX clientY : ℚ) : Point :=
  match imageRef with
  | none => ⟨0, 0⟩
  | some rect =>
      ⟨(clientX - rect.left) / rect.width * imageWidth,
       (clientY - rect.top) / rect.height * imageHeight⟩

/-- The three `CoordinateFormat` values of the source. -/
inductive CoordinateFormat
  | pixels
  | percentage
  | normalized
deriving DecidableEq, Repr

/-- Optional axis tag of a coordinate value (`axis?: 'x' | 'y'`). -/
inductive Axis
  | x
  | y
deriving DecidableEq, Repr

/-- Left-pad a digit string with zeros to length `f`. -/
def padZeros (f : ℕ) (s : String) : String :=
  String.mk (List.replicate (f - s.length) '0') ++ s

/-- ECMAScript `Number.prototype.toFixed f` for a nonnegative rational: the
numerator is the integer nearest `x·10^f`, ties picking the larger. -/
def toFixedNonneg (f : ℕ) (x : ℚ) : String :=
  let n : ℕ := (Int.floor (x * (10 : ℚ) ^ f + 1/2)).toNat
  if f = 0 then Nat.repr n
  else Nat.repr (n / 10 ^ f) ++ "." ++ padZeros f (Nat.repr (n % 10 ^ f))

/-- ECMAScript `Number.prototype.toFixed f`: the sign is split off first. -/
def toFixedStr (f : ℕ) (x : ℚ) : String :=
  if x < 0 then "-" ++ toFixedNonneg f (-x) else toFixedNonneg f x

/-- `formatCoordinate` from the source: `pixels` rounds to an integer string,
`percentage` is `value / maxValue × 100` to one decimal plus `%`, `normalized`
is `value / normalizedMax` to three decimals; the divisor is the image width
for an `x`-tagged value, the image height for `y`, and `max(width, height)`
when no axis is given. -/
def formatCoordinate (coordinateFormat : CoordinateFormat)
    (imageWidth imageHeight : ℚ) (value : ℚ) (axis : Option Axis) : String :=
  match coordinateFormat with
  | .percentage =>
      let maxValue := match axis with
        | some .x => imageWidth
        | some .y => imageHeight
        | none => max imageWidth imageHeight
      toFixedStr 1 (value / maxValue * 100) ++ "%"
  | .normalized =>
      let normalizedMax := match axis with
        | some .x => imageWidth
        | some .y => imageHeight
        | none => max imageWidth imageHeight
      toFixedStr 3 (value / normalizedMax)
  | .pixels => Int.repr (jsRound value)

/-- Tooltip state. The source builds it as
`{ detection: detections.find(d => d.id === hoveredDetection)!, x, y }`;
the non-null assertion `!` is embedded by keeping the raw `find` result, so
`detection = none` is exactly the state in which the assertion is violated
(the tooltip holds an undefined detection). -/
structure TooltipData where
  detection : Option DetectionData
  x : ℚ
  y : ℚ
deriving DecidableEq, Repr

/-- `CoordinatePopupData` from the source. -/
structure CoordinatePopupData where
  detection : DetectionData
  x : ℚ
  y : ℚ
deriving DecidableEq, Repr

/-- `RulerPoint` from the source: display coordinates `x`,`y` (relative to the
container) and image-space coordinates. -/
structure RulerPoint where
  x : ℚ
  y : ℚ
  imageX : ℚ
  imageY : ℚ
deriving DecidableEq, Repr

/-- The component state: every `useState` hook of `InteractiveImageOverlay`
plus the lifted `selectedDetectionId` prop, whose owner applies
`onDetectionSelect` synchronously. -/
structure OverlayState where
  hoveredDetection : Option ℤ
  tooltipData : Option TooltipData
  coordinatePopup : Option CoordinatePopupData
  coordinateFormat : CoordinateFormat
  rulerMode : Bool
  rulerPoints : List RulerPoint
  copiedCoordinate : Option String
  mousePosition : Option Point
  selectedDetectionId : Option ℤ
deriving DecidableEq, Repr

/-- `handleMouseMove` from the source: always records the image-space mouse
position; while some detection id is hovered and the container is mounted it
rebuilds the tooltip at the live pointer position from the raw
`detections.find` result. -/
def handleMouseMove (detections : List DetectionData) (imageRef : Option Rect)
    (imageWidth imageHeight : ℚ) (containerRect : Option Rect)
    (clientX clientY : ℚ) (s : OverlayState) : OverlayState :=
  let imageCoords :=
    getImageCoordinates imageRef imageWidth imageHeight clientX clientY
  let s1 := { s with mousePosition := some imageCoords }
  match s1.hoveredDetection with
  | none => s1
  | some hid =>
      match containerRect with
      | none => s1
      | some rect =>
          { s1 with
            tooltipData := some
              ⟨detections.find? (fun d => d.id == hid),
               clientX - rect.left, clientY - rect.top⟩ }

/-- `handleMouseLeave` from the source: clears hover, tooltip, and the mouse
position. -/
def handleMouseLeave (s : OverlayState) : OverlayState :=
  { s with hoveredDetection := none, tooltipData := none,
           mousePosition := none }

/-- The `onMouseEnter` handler attached to each rendered path and corner
marker: set `hoveredDetection` to that detection's id. -/
def onMouseEnterShape (d : DetectionData) (s : OverlayState) : OverlayState :=
  { s with hoveredDetection := some d.id }

/-- The updater passed to `setRulerPoints` in `handleImageClick`: two or more
stored points are replaced by the singleton new point, otherwise the new
point is appended. -/
def addRulerPoint (prev : List RulerPoint) (newPoint : RulerPoint) :
    List RulerPoint :=
  if prev.length ≥ 2 then [newPoint] else prev ++ [newPoint]

/-- `handleBoxClick` from the source. It always stops propagation (so
`handleImageClick` never runs for a shape click), does nothing in ruler mode,
and otherwise opens the coordinate popup and selects the detection, provided
the container is mounted. -/
def handleBoxClick (d : DetectionData) (containerRect : Option Rect)
    (clientX clientY : ℚ) (s : OverlayState) : OverlayState :=
  if s.rulerMode then s
  else
    match containerRect with
    | none => s
    | some rect =>
        { s with
          coordinatePopup := some ⟨d, clientX - rect.left, clientY - rect.top⟩,
          selectedDetectionId := some d.id }

/-- `handleImageClick` from the source: in ruler mode a new `RulerPoint` is
stored (when the container is mounted); otherwise the popup and selection are
cleared. -/
def handleImageClick (imageRef : Option Rect) (imageWidth imageHeight : ℚ)
    (containerRect : Option Rect) (clientX clientY : ℚ) (s : OverlayState) :
    OverlayState :=
  if s.rulerMode then
    let imageCoords :=
      getImageCoordinates imageRef imageWidth imageHeight clientX clientY
    match containerRect with
    | none => s
    | some rect =>
        let newPoint : RulerPoint :=
          ⟨clientX - rect.left, clientY - rect.top,
           imageCoords.x, imageCoords.y⟩
        { s with rulerPoints := addRulerPoint s.rulerPoints newPoint }
  else
    { s with coordinatePopup := none, selectedDetectionId := none }

/-- What a click lands on: a detection shape (the polygon path or one of its
corner markers, both wired to `handleBoxClick`) or the SVG background (wired
to `handleImageClick`). -/
inductive ClickTarget
  | shape (d : DetectionData)
  | background
deriving DecidableEq, Repr

/-- One click event dispatched as the DOM does: a shape click runs
`handleBoxClick`, which calls `stopPropagation` before anything else, so the
SVG's `handleImageClick` is never reached; a background click runs
`handleImageClick`. -/
def handleClick (target : ClickTarget) (imageRef : Option Rect)
    (imageWidth imageHeight : ℚ) (containerRect : Option Rect)
    (clientX clientY : ℚ) (s : OverlayState) : OverlayState :=
  match target with
  | .shape d => handleBoxClick d containerRect clientX clientY s
  | .background =>
      handleImageClick imageRef imageWidth imageHeight containerRect
        clientX clientY s

/-- Result of the external clipboard write. -/
inductive ClipboardResult
  | success
  | failure
deriving DecidableEq, Repr

/-- `copyToClipboard` from the source, as the pair (state right after the
handler, state after the 2000 ms timeout fires). On success the label is
stored and later cleared; on failure the catch block only logs the error and
changes no state. -/
def copyToClipboard (result : ClipboardResult) (label : String)
    (s : OverlayState) : OverlayState × OverlayState :=
  match result with
  | .success =>
      ({ s with copiedCoordinate := some label },
       { s with copiedCoordinate := none })
  | .failure => (s, s)

/-- The geometry and styling `renderBoundingBox` emits for one detection. -/
structure RenderedBox where
  pathPoints : List Point
  color : String
  strokeWidth : ℚ
  opacity : ℚ
  dashed : Bool
  crosshairCenter : Option Point
  labelPos : Point
deriving DecidableEq, Repr

/-- Scale an image-space point to display space. -/
def scalePoint (scaleFactors : Point) (p : Point) : Point :=
  ⟨p.x * scaleFactors.x, p.y * scaleFactors.y⟩

/-- `renderBoundingBox` from the source: the path always traverses the four
scaled vertices top-left → top-right → bottom-right → bottom-left; stroke
width is 3 when selected, 2.5 when hovered, else 2; opacity is 0.8 when
hovered, else 0.6; the stroke is dashed exactly when selected; the crosshair
appears at the scaled center point only when selected; the label sits 8 units
above the scaled top-left vertex. -/
def renderBoundingBox (scaleFactors : Point)
    (selectedDetectionId hoveredDetection : Option ℤ) (d : DetectionData) :
    RenderedBox :=
  let isSelected := selectedDetectionId = some d.id
  let isHovered := hoveredDetection = some d.id
  let sTL := scalePoint scaleFactors d.vertices.top_left
  let sTR := scalePoint scaleFactors d.vertices.top_right
  let sBL := scalePoint scaleFactors d.vertices.bottom_left
  let sBR := scalePoint scaleFactors d.vertices.bottom_right
  { pathPoints := [sTL, sTR, sBR, sBL]
    color := if d.matched_request then "#22c55e" else "#f97316"
    strokeWidth := if isSelected then 3 else if isHovered then 5/2 else 2
    opacity := if isHovered then 4/5 else 3/5
    dashed := isSelected
    crosshairCenter :=
      if isSelected then some (scalePoint scaleFactors d.center_point)
      else none
    labelPos := ⟨sTL.x, sTL.y - 8⟩ }

/-- The axis-aligned rectangle reconstructed from `bbox` alone, in the same
traversal order, scaled to display space. Modelled from the spec's
error-handling words ("degrade to axis-aligned rectangle from x1,y1,x2,y2"),
for comparison with what `renderBoundingBox` actually draws. -/
def bboxRectanglePath (scaleFactors : Point) (d : DetectionData) :
    List Point :=
  [scalePoint scaleFactors ⟨d.bbox.x1, d.bbox.y1⟩,
   scalePoint scaleFactors ⟨d.bbox.x2, d.bbox.y1⟩,
   scalePoint scaleFactors ⟨d.bbox.x2, d.bbox.y2⟩,
   scalePoint scaleFactors ⟨d.bbox.x1, d.bbox.y2⟩]

/-- A well-formed sample detection with the given id: bbox (0,0)-(10,10),
consistent vertices, center (5,5). -/
def sampleDetection (n : ℤ) : DetectionData :=
  { id := n
    class_name := "person"
    confidence := 9/10
    bbox := ⟨0, 0, 10, 10⟩
    vertices := ⟨⟨0, 0⟩, ⟨10, 0⟩, ⟨0, 10⟩, ⟨10, 10⟩⟩
    center_point := ⟨5, 5⟩
    area := 100
    dimensions := ⟨10, 10⟩
    matched_request := true }

/-- A detection whose vertices are inconsistent with its bounding box: the
bbox is (0,0)-(10,10) but all four vertices collapse to (5,5). -/
def malformedDetection : DetectionData :=
  { sampleDetection 1 with vertices := ⟨⟨5, 5⟩, ⟨5, 5⟩, ⟨5, 5⟩, ⟨5, 5⟩⟩ }

/-- The component's initial state: every hook starts empty, `pixels` format,
ruler off. -/
def initState : OverlayState :=
  { hoveredDetection := none
    tooltipData := none
    coordinatePopup := none
    coordinateFormat := .pixels
    rulerMode := false
    rulerPoints := []
    copiedCoordinate := none
    mousePosition := none
    selectedDetectionId := none }

/-- A concrete mounted bounding rect at the origin, 100×100. -/
def rect0 : Rect := ⟨0, 0, 100, 100⟩

/-- The initial state with ruler mode switched on. -/
def rulerOnState : OverlayState := { initState with rulerMode := true }

end Overlay

open Overlay

/-- C4: display-extent computation with maxHeight 600. With `exactDimensions`
the output (and the scale factors) are the identity; with height ≤ 600 the
extents pass through unchanged; otherwise the height is exactly 600 and the
width is `round(600 × imageWidth / imageHeight)`. Hence the output height
never exceeds 600 unless `exactDimensions` is set, and equal inputs give
equal outputs. -/
theorem C4_scaling_engine (w h : ℚ) :
    (getScaledDimensions w h true = ⟨w, h⟩ ∧
      (updateDimensions w h true).2 = ⟨1, 1⟩) ∧
    (h ≤ 600 → getScaledDimensions w h false = ⟨w, h⟩) ∧
    (600 < h →
      getScaledDimensions w h false = ⟨(jsRound (600 * w / h) : ℚ), 600⟩) ∧
    (getScaledDimensions w h false).height ≤ 600 ∧
    getScaledDimensions w h false = getScaledDimensions w h false := by
  refine ⟨⟨rfl, rfl⟩, ?_, ?_, ?_, rfl⟩
  · intro hle
    simp [getScaledDimensions, hle]
  · intro hgt
    have : ¬ h ≤ 600 := not_le.mpr hgt
    simp [getScaledDimensions, this, mul_div_assoc]
  · by_cases hle : h ≤ 600
    · simp [getScaledDimensions, hle]
    · simp [getScaledDimensions, hle]

/-- Witness for C4 at the spec's end-to-end scenario: a 1920×1080 image is
scaled to 1067×600. -/
theorem C4_scaling_engine_witness :
    getScaledDimensions 1920 1080 false = ⟨1067, 600⟩ := by
  have h := (C4_scaling_engine 1920 1080).2.2.1 (by norm_num)
  rw [h]
  norm_num [jsRound]

/-- C5: round-trip of the coordinate mapping. On a mounted surface whose rect
has width `imageWidth × sx` and height `imageHeight × sy` (both nonzero),
mapping a client point to image space with `getImageCoordinates` and back to
display space by elementwise multiplication with the scale factors returns the
display point exactly, hence within the 0.01 tolerance. -/
theorem C5_coordinate_round_trip (rect : Rect) (imageWidth imageHeight sx sy : ℚ)
    (clientX clientY : ℚ)
    (hw : rect.width = imageWidth * sx) (hh : rect.height = imageHeight * sy)
    (hw0 : rect.width ≠ 0) (hh0 : rect.height ≠ 0) :
    |(getImageCoordinates (some rect) imageWidth imageHeight clientX clientY).x * sx
        - (clientX - rect.left)| ≤ 1/100 ∧
    |(getImageCoordinates (some rect) imageWidth imageHeight clientX clientY).y * sy
        - (clientY - rect.top)| ≤ 1/100 := by
  have hwx : imageWidth ≠ 0 := by
    intro h0; apply hw0; rw [hw, h0, zero_mul]
  have hsx : sx ≠ 0 := by
    intro h0; apply hw0; rw [hw, h0, mul_zero]
  have hhy : imageHeight ≠ 0 := by
    intro h0; apply hh0; rw [hh, h0, zero_mul]
  have hsy : sy ≠ 0 := by
    intro h0; apply hh0; rw [hh, h0, mul_zero]
  constructor
  · have : (clientX - rect.left) / rect.width * imageWidth * sx
        = clientX - rect.left := by
      rw [hw]; field_simp; ring
    simp [getImageCoordinates, this]
  · have : (clientY - rect.top) / rect.height * imageHeight * sy
        = clientY - rect.top := by
      rw [hh]; field_simp; ring
    simp [getImageCoordinates, this]

/-- Witness for C5 at a concrete mounted surface: a 1920×1080 image scaled by
5/9 in both axes, pointer at client (300, 250) over a rect at (100, 50). -/
theorem C5_coordinate_round_trip_witness :
    |(getImageCoordinates (some ⟨100, 50, 1920 * (5/9), 1080 * (5/9)⟩)
        1920 1080 300 250).x * (5/9) - (300 - 100)| ≤ 1/100 ∧
    |(getImageCoordinates (some ⟨100, 50, 1920 * (5/9), 1080 * (5/9)⟩)
        1920 1080 300 250).y * (5/9) - (250 - 50)| ≤ 1/100 :=
  C5_coordinate_round_trip ⟨100, 50, 1920 * (5/9), 1080 * (5/9)⟩
    1920 1080 (5/9) (5/9) 300 250 rfl rfl (by norm_num) (by norm_num)

/-- C9: coordinate formatting. `pixels` yields the decimal string of the
rounded value with no unit suffix; `percentage` yields `value/axisExtent×100`
to one decimal place plus `%`; `normalized` yields `value/axisExtent` to three
decimal places; the axis extent is the image width for an `x` tag, the image
height for a `y` tag, and `max(width, height)` untagged. 123.456 against
extent 1000 formats as "123", "12.3%" and "0.123"; the function is total so
it never throws, and equal inputs give equal strings. -/
theorem C9_format_coordinate (imageWidth imageHeight v : ℚ) :
    (∀ axis, formatCoordinate .pixels imageWidth imageHeight v axis
        = Int.repr (jsRound v)) ∧
    (formatCoordinate .percentage imageWidth imageHeight v (some .x)
        = toFixedStr 1 (v / imageWidth * 100) ++ "%" ∧
      formatCoordinate .percentage imageWidth imageHeight v (some .y)
        = toFixedStr 1 (v / imageHeight * 100) ++ "%" ∧
      formatCoordinate .percentage imageWidth imageHeight v none
        = toFixedStr 1 (v / max imageWidth imageHeight * 100) ++ "%") ∧
    (formatCoordinate .normalized imageWidth imageHeight v (some .x)
        = toFixedStr 3 (v / imageWidth) ∧
      formatCoordinate .normalized imageWidth imageHeight v (some .y)
        = toFixedStr 3 (v / imageHeight) ∧
      formatCoordinate .normalized imageWidth imageHeight v none
        = toFixedStr 3 (v / max imageWidth imageHeight)) ∧
    (formatCoordinate .pixels 1000 500 (123456/1000) (some .x) = "123" ∧
      formatCoordinate .percentage 1000 500 (123456/1000) (some .x) = "12.3%" ∧
      formatCoordinate .normalized 1000 500 (123456/1000) (some .x) = "0.123") ∧
    (∀ fmt axis, formatCoordinate fmt imageWidth imageHeight v axis
        = formatCoordinate fmt imageWidth imageHeight v axis) := by
  refine ⟨fun axis => rfl, ⟨rfl, rfl, rfl⟩, ⟨rfl, rfl, rfl⟩,
    ⟨?_, ?_, ?_⟩, fun fmt axis => rfl⟩
  · show Int.repr (jsRound ((123456 : ℚ)/1000)) = "123"
    rw [show jsRound ((123456 : ℚ)/1000) = 123 from by norm_num [jsRound]]
    rfl
  · show toFixedStr 1 ((123456 : ℚ)/1000 / 1000 * 100) ++ "%" = "12.3%"
    have hx : ((123456 : ℚ)/1000 / 1000 * 100) = 123456/10000 := by norm_num
    have hf : Int.floor (((123456 : ℚ)/10000) * (10 : ℚ) ^ (1 : ℕ) + 1/2)
        = 123 := by norm_num
    rw [hx, toFixedStr, if_neg (by norm_num), toFixedNonneg]
    simp only [hf]
    rfl
  · show toFixedStr 3 ((123456 : ℚ)/1000 / 1000) = "0.123"
    have hx : ((123456 : ℚ)/1000 / 1000) = 123456/1000000 := by norm_num
    have hf : Int.floor (((123456 : ℚ)/1000000) * (10 : ℚ) ^ (3 : ℕ) + 1/2)
        = 123 := by norm_num
    rw [hx, toFixedStr, if_neg (by norm_num), toFixedNonneg]
    simp only [hf]
    rfl

/-- C1: the claim says a stale `hoveredId` must be treated as no hover / no
tooltip. The code violates it: with `hoveredDetection = 7` and an empty
current detections array, a pointer move still builds a tooltip, and its
detection field is the raw `detections.find(...)` result `none` — the
non-null assertion `!` in the source is false there, and the tooltip render
dereferences `tooltipData.detection.class_name`, which is undefined. -/
theorem C1_stale_hover_undefined_tooltip :
    (handleMouseMove [] (some rect0) 100 100 (some rect0) 5 5
        { initState with hoveredDetection := some 7 }).tooltipData.map
        TooltipData.detection = some none ∧
    (handleMouseMove [] (some rect0) 100 100 (some rect0) 5 5
        { initState with hoveredDetection := some 7 }).tooltipData ≠ none := by
  constructor
  · rfl
  · intro h
    simp [handleMouseMove, initState, rect0] at h

/-- C10: hover persistence. A pointer move never changes `hoveredDetection`
(nor the popup, selection, ruler state, format, or copied flag — only
`mousePosition` and `tooltipData` are touched); leaving the container clears
hover, tooltip and mouse position; entering a shape sets
`hoveredDetection` to that shape's id. -/
theorem C10_hover_persistence (detections : List DetectionData)
    (imageRef : Option Rect) (imageWidth imageHeight : ℚ)
    (containerRect : Option Rect) (clientX clientY : ℚ)
    (d : DetectionData) (s : OverlayState) :
    ((handleMouseMove detections imageRef imageWidth imageHeight
        containerRect clientX clientY s).hoveredDetection
          = s.hoveredDetection ∧
      (handleMouseMove detections imageRef imageWidth imageHeight
        containerRect clientX clientY s).coordinatePopup
          = s.coordinatePopup ∧
      (handleMouseMove detections imageRef imageWidth imageHeight
        containerRect clientX clientY s).selectedDetectionId
          = s.selectedDetectionId ∧
      (handleMouseMove detections imageRef imageWidth imageHeight
        containerRect clientX clientY s).rulerMode = s.rulerMode ∧
      (handleMouseMove detections imageRef imageWidth imageHeight
        containerRect clientX clientY s).rulerPoints = s.rulerPoints ∧
      (handleMouseMove detections imageRef imageWidth imageHeight
        containerRect clientX clientY s).coordinateFormat
          = s.coordinateFormat ∧
      (handleMouseMove detections imageRef imageWidth imageHeight
        containerRect clientX clientY s).copiedCoordinate
          = s.copiedCoordinate) ∧
    ((handleMouseLeave s).hoveredDetection = none ∧
      (handleMouseLeave s).tooltipData = none ∧
      (handleMouseLeave s).mousePosition = none) ∧
    (onMouseEnterShape d s).hoveredDetection = some d.id := by
  cases s
  refine ⟨?_, ⟨rfl, rfl, rfl⟩, rfl⟩
  rename_i hov tt cp fmt rm rp cc mp sel
  cases hov <;> cases containerRect <;>
    simp [handleMouseMove]

/-- C2 counterexample: with ruler mode on, a click that lands on a detection
shape (or one of its corner markers) runs `handleBoxClick`, which stops
propagation and returns before doing anything, so no RulerPoint is added —
the state is completely unchanged, refuting "for every click ... regardless
of whether the click lands on a detection shape". -/
theorem C2_counterexample :
    handleClick (.shape (sampleDetection 1)) (some rect0) 100 100 (some rect0)
        5 5 rulerOnState = rulerOnState ∧
    (handleClick (.shape (sampleDetection 1)) (some rect0) 100 100 (some rect0)
        5 5 rulerOnState).rulerPoints = [] := by
  constructor <;> rfl

/-- C2 amended: while ruler mode is on, a click on the background surface
stores a RulerPoint built from the container offset and the coordinate
mapper's image-space point (subject to the 2-point overflow rule), but a
click on a detection shape or corner marker is consumed by `handleBoxClick`
with no state change. -/
theorem C2_ruler_click (imageRef : Option Rect) (imageWidth imageHeight : ℚ)
    (rect : Rect) (clientX clientY : ℚ) (s : OverlayState)
    (hruler : s.rulerMode = true) :
    (handleClick .background imageRef imageWidth imageHeight (some rect)
        clientX clientY s).rulerPoints
      = addRulerPoint s.rulerPoints
          ⟨clientX - rect.left, clientY - rect.top,
           (getImageCoordinates imageRef imageWidth imageHeight
              clientX clientY).x,
           (getImageCoordinates imageRef imageWidth imageHeight
              clientX clientY).y⟩ ∧
    ∀ d : DetectionData,
      handleClick (.shape d) imageRef imageWidth imageHeight (some rect)
        clientX clientY s = s := by
  constructor
  · simp [handleClick, handleImageClick, hruler]
  · intro d
    simp [handleClick, handleBoxClick, hruler]

/-- Witness for C2 at a concrete input: ruler mode on, background click at
client (5,5) over the 100×100 rect at the origin. -/
theorem C2_ruler_click_witness :
    rulerOnState.rulerMode = true ∧
    ((handleClick .background (some rect0) 100 100 (some rect0)
        5 5 rulerOnState).rulerPoints
      = addRulerPoint rulerOnState.rulerPoints
          ⟨5 - rect0.left, 5 - rect0.top,
           (getImageCoordinates (some rect0) 100 100 5 5).x,
           (getImageCoordinates (some rect0) 100 100 5 5).y⟩ ∧
      ∀ d : DetectionData,
        handleClick (.shape d) (some rect0) 100 100 (some rect0)
          5 5 rulerOnState = rulerOnState) :=
  ⟨rfl, C2_ruler_click (some rect0) 100 100 rect0 5 5 rulerOnState rfl⟩

/-- C3 counterexample: a detection whose four vertices all collapse to (5,5)
while its bbox is (0,0)-(10,10) is rendered as the degenerate vertex polygon,
not as the axis-aligned rectangle reconstructed from the bbox — the claimed
fallback does not exist in the code. -/
theorem C3_counterexample :
    (renderBoundingBox ⟨1, 1⟩ none none malformedDetection).pathPoints
        = [⟨5, 5⟩, ⟨5, 5⟩, ⟨5, 5⟩, ⟨5, 5⟩] ∧
    (renderBoundingBox ⟨1, 1⟩ none none malformedDetection).pathPoints
        ≠ bboxRectanglePath ⟨1, 1⟩ malformedDetection := by
  constructor
  · simp [renderBoundingBox, malformedDetection, sampleDetection, scalePoint]
  · intro h
    simp [renderBoundingBox, malformedDetection, sampleDetection, scalePoint,
      bboxRectanglePath, Point.mk.injEq] at h

/-- C3 amended: for every detection — consistent or not — the renderer always
draws the closed polygon through the four scaled vertices in traversal order
top-left → top-right → bottom-right → bottom-left; the bounding box is never
consulted for the outline, and the renderer is a total function (it cannot
crash on malformed geometry). -/
theorem C3_renderer_always_vertices (scaleFactors : Point)
    (selectedDetectionId hoveredDetection : Option ℤ) (d : DetectionData) :
    (renderBoundingBox scaleFactors selectedDetectionId hoveredDetection
        d).pathPoints
      = [scalePoint scaleFactors d.vertices.top_left,
         scalePoint scaleFactors d.vertices.top_right,
         scalePoint scaleFactors d.vertices.bottom_right,
         scalePoint scaleFactors d.vertices.bottom_left] := rfl

/-- C6 counterexample: for a selected (but not hovered) detection the polygon
opacity is 0.6, equal to the default opacity and strictly below the hovered
opacity 0.8 — opacity is not strictly monotone selected > hovered >
default. -/
theorem C6_counterexample :
    (renderBoundingBox ⟨1, 1⟩ (some 1) none (sampleDetection 1)).opacity
        = (renderBoundingBox ⟨1, 1⟩ none none (sampleDetection 1)).opacity ∧
    ¬ ((renderBoundingBox ⟨1, 1⟩ (some 1) none (sampleDetection 1)).opacity
        > (renderBoundingBox ⟨1, 1⟩ none (some 1)
            (sampleDetection 1)).opacity) := by
  constructor
  · rfl
  · intro h
    simp [renderBoundingBox, sampleDetection] at h
    norm_num at h

/-- C6 amended: stroke width is strictly monotone in the interaction state
(selected 3 > hovered 2.5 > default 2), but opacity depends only on hover:
0.8 when hovered, 0.6 otherwise, so a selected-but-not-hovered detection has
the default opacity. -/
theorem C6_visual_weight (scaleFactors : Point) (d : DetectionData) :
    ((renderBoundingBox scaleFactors (some d.id) none d).strokeWidth
        > (renderBoundingBox scaleFactors none (some d.id) d).strokeWidth ∧
      (renderBoundingBox scaleFactors none (some d.id) d).strokeWidth
        > (renderBoundingBox scaleFactors none none d).strokeWidth) ∧
    (renderBoundingBox scaleFactors none (some d.id) d).opacity
        > (renderBoundingBox scaleFactors none none d).opacity ∧
    (renderBoundingBox scaleFactors (some d.id) none d).opacity
        = (renderBoundingBox scaleFactors none none d).opacity := by
  refine ⟨⟨?_, ?_⟩, ?_, ?_⟩ <;>
    simp [renderBoundingBox] <;> norm_num

/-- C7 counterexample: a failed clipboard write leaves the state untouched —
in particular no "not copied" notice of any kind is surfaced (the
`copiedCoordinate` hook still holds `none` immediately after the failure and
after the timeout horizon). -/
theorem C7_counterexample :
    copyToClipboard .failure "popup-center" initState
      = (initState, initState) ∧
    (copyToClipboard .failure "popup-center" initState).1.copiedCoordinate
      = none := by
  constructor <;> rfl

/-- C7 amended: on clipboard failure the core performs no state change at all
(so nothing is surfaced, and within the core a single write is issued — no
retry, no escalation); on success it sets the transient "copied" notice to
the label and the 2000 ms timeout clears it. -/
theorem C7_clipboard (label : String) (s : OverlayState) :
    copyToClipboard .failure label s = (s, s) ∧
    (copyToClipboard .success label s).1.copiedCoordinate = some label ∧
    (copyToClipboard .success label s).2.copiedCoordinate = none :=
  ⟨rfl, rfl, rfl⟩

/-- C8: ruler-point overflow. Adding a third point to a stored pair yields
exactly the singleton of the new point; with fewer than two stored points the
new point is appended; consequently the stored collection never exceeds two
points. -/
theorem C8_ruler_overflow (p1 p2 p3 : RulerPoint) :
    addRulerPoint [p1, p2] p3 = [p3] ∧
    (∀ (prev : List RulerPoint) (p : RulerPoint), prev.length < 2 →
      addRulerPoint prev p = prev ++ [p]) ∧
    (∀ (prev : List RulerPoint) (p : RulerPoint),
      (addRulerPoint prev p).length ≤ 2) := by
  refine ⟨rfl, ?_, ?_⟩
  · intro prev p hlen
    rw [addRulerPoint, if_neg (by omega)]
  · intro prev p
    by_cases h : prev.length ≥ 2
    · simp [addRulerPoint, h]
    · rw [addRulerPoint, if_neg h]
      simp only [List.length_append, List.length_cons, List.length_nil]
      omega

/-- Witness for C8 at concrete points: a third point resets the pair to a
singleton, and appending to the empty collection appends. -/
theorem C8_ruler_overflow_witness :
    ([] : List RulerPoint).length < 2 ∧
    addRulerPoint [⟨0, 0, 0, 0⟩, ⟨1, 1, 1, 1⟩] ⟨2, 2, 2, 2⟩
      = [⟨2, 2, 2, 2⟩] ∧
    addRulerPoint [] ⟨0, 0, 0, 0⟩ = [] ++ [⟨0, 0, 0, 0⟩] :=
  ⟨by decide,
   (C8_ruler_overflow ⟨0, 0, 0, 0⟩ ⟨1, 1, 1, 1⟩ ⟨2, 2, 2, 2⟩).1,
   (C8_ruler_overflow ⟨0, 0, 0, 0⟩ ⟨1, 1, 1, 1⟩ ⟨2, 2, 2, 2⟩).2.1
     [] ⟨0, 0, 0, 0⟩ (by decide)⟩
